import Mathlib

/-!
Shallow embedding of the order/delivery/pricing/refund core of the
git-buddy storefront (React + Supabase), translated from:
  src/pages/store/Cart.tsx          (pricing, cart quantity updates)
  src/pages/store/Home.tsx          (handleAddToCart)
  src/pages/admin/Orders.tsx        (handleStatusUpdate, handleDeliveryUpdate,
                                     getDeliveryProgress)
  src/components/storefront/StorefrontLayout.tsx
                                    (AdminOrders: handleStatusUpdate,
                                     handleDeliveryUpdate, handleRefund,
                                     COD payment-status handler)
Monetary values are modelled as rationals; timestamps as naturals.
Each handler is modelled on its success path (the remote store accepted
the write); remote write failures are outside the embedded logic.
-/

/-- OrderStatus, from the ORDER_STATUSES list in Orders.tsx. -/
inductive OrderStatus where
  | new | confirmed | packed | shipped | delivered | cancelled | returned
  deriving DecidableEq, Repr

/-- DeliveryStatus, from the DELIVERY_STATUSES list in Orders.tsx. -/
inductive DeliveryStatus where
  | pending | assigned | picked | in_transit | delivered | failed
  deriving DecidableEq, Repr

instance : BEq DeliveryStatus := ⟨fun a b => decide (a = b)⟩

instance : LawfulBEq DeliveryStatus where
  eq_of_beq h := by simpa [BEq.beq] using h
  rfl := by simp [BEq.beq]

/-- The ordered DELIVERY_STATUSES list of Orders.tsx. -/
def DELIVERY_STATUSES : List DeliveryStatus :=
  [.pending, .assigned, .picked, .in_transit, .delivered, .failed]

/-- Order record: the fields that the embedded handlers read or write. -/
structure Order where
  id : Nat
  status : OrderStatus
  payment_status : String
  payment_method : Option String
  total : ℚ
  deriving DecidableEq, Repr

/-- Delivery record: the fields that handleDeliveryUpdate reads or writes. -/
structure Delivery where
  id : Nat
  status : DeliveryStatus
  delivered_at : Option Nat
  deriving DecidableEq, Repr

/-- Payment ledger entry, from the payments table rows that handleRefund
inserts and the COD handler updates. -/
structure Payment where
  id : Nat
  order_id : Nat
  amount : ℚ
  method : String
  status : String
  refund_amount : Option ℚ
  refund_reason : Option String
  deriving DecidableEq, Repr

/-- Coupon type discriminator, from the Coupon row shape used in Cart.tsx. -/
inductive CouponType where
  | percentage | fixed
  deriving DecidableEq, Repr

/-- Coupon record, from the Coupon row shape used in Cart.tsx.
max_discount none models a NULL column value. -/
structure Coupon where
  code : String
  type : CouponType
  value : ℚ
  max_discount : Option ℚ
  min_order_value : Option ℚ
  is_active : Bool
  deriving DecidableEq, Repr

/-- Product: the fields read by the cart operations. -/
structure Product where
  id : Nat
  price : ℚ
  stock_quantity : Nat
  deriving DecidableEq, Repr

/-- A cart line joined with its product, as in CartItemWithProduct. -/
structure CartItem where
  id : Nat
  quantity : Nat
  product : Product
  deriving DecidableEq, Repr

/-! ## PricingEngine (Cart.tsx lines 105-114) -/

/-- Cart.tsx line 105: subtotal = reduce (sum + price * quantity, 0). -/
def subtotalOf (items : List CartItem) : ℚ :=
  items.foldl (fun sum item => sum + item.product.price * item.quantity) 0

/-- Cart.tsx lines 107-111: the coupon discount.  For a percentage coupon
the JS cap is written appliedCoupon.max_discount || Infinity, so a NULL
max_discount and a max_discount of 0 (both falsy) leave the percentage
uncapped; Math.min with Infinity is the identity.  A fixed coupon
contributes its raw value with no clamping. -/
def discountOf (coupon : Option Coupon) (subtotal : ℚ) : ℚ :=
  match coupon with
  | none => 0
  | some c =>
    match c.type with
    | .percentage =>
      match c.max_discount with
      | some m => if m = 0 then subtotal * c.value / 100 else min (subtotal * c.value / 100) m
      | none => subtotal * c.value / 100
    | .fixed => c.value

/-- Cart.tsx line 113: shippingCharge = subtotal >= 500 ? 0 : 50. -/
def shippingChargeOf (subtotal : ℚ) : ℚ :=
  if subtotal ≥ 500 then 0 else 50

/-- The four pricing outputs computed together in Cart.tsx lines 105-114. -/
structure Totals where
  subtotal : ℚ
  discount : ℚ
  shippingCharge : ℚ
  total : ℚ
  deriving DecidableEq, Repr

/-- The pricing computation of Cart.tsx lines 105-114 as one function
(the computeTotals contract of the spec): total = subtotal - discount
+ shippingCharge, with no clamping of discount and no flooring of total. -/
def computeTotals (items : List CartItem) (coupon : Option Coupon) : Totals :=
  let sub := subtotalOf items
  let disc := discountOf coupon sub
  let ship := shippingChargeOf sub
  { subtotal := sub, discount := disc, shippingCharge := ship,
    total := sub - disc + ship }

/-! ## Cart quantity operations -/

/-- Cart.tsx lines 52-63 updateQuantity: rejects newQuantity < 1, rejects a
missing item or newQuantity > stock_quantity (toast, no write), otherwise
writes the new quantity on the matching line. -/
def updateQuantity (items : List CartItem) (itemId : Nat) (newQuantity : Nat) :
    List CartItem :=
  if newQuantity < 1 then items
  else
    match items.find? (fun i => i.id == itemId) with
    | none => items
    | some item =>
      if newQuantity > item.product.stock_quantity then items
      else items.map (fun i => if i.id == itemId then { i with quantity := newQuantity } else i)

/-- Home.tsx lines 129-161 handleAddToCart, cart_items part: if a line for
the product exists its quantity is incremented by one, otherwise a new line
with quantity 1 is inserted.  No stock_quantity check is performed on
either path; freshId abstracts the row id the store would mint. -/
def handleAddToCart (items : List CartItem) (p : Product) (freshId : Nat) :
    List CartItem :=
  match items.find? (fun i => i.product.id == p.id) with
  | some existingItem =>
      items.map (fun i =>
        if i.id == existingItem.id then { i with quantity := i.quantity + 1 } else i)
  | none => items ++ [{ id := freshId, quantity := 1, product := p }]

/-! ## OrderLifecycle (Orders.tsx lines 109-126, StorefrontLayout.tsx
lines 95-106) -/

/-- handleStatusUpdate (identical in both files): writes status := newStatus
on the selected order unconditionally; no edge validation, no
InvalidTransition error exists in the code. -/
def handleStatusUpdate (o : Order) (newStatus : OrderStatus) : Order :=
  { o with status := newStatus }

/-- Modelled from the spec: the order-lifecycle edge set of section 4.2
(new to confirmed to packed to shipped to delivered linearly, cancelled
and returned reachable from any non-terminal state, no exits from
delivered, cancelled or returned).  The source has no such definition;
this one exists only to compare the spec edge set with the code. -/
def specAllowedOrderEdge : OrderStatus → OrderStatus → Bool
  | .new, .confirmed => true
  | .confirmed, .packed => true
  | .packed, .shipped => true
  | .shipped, .delivered => true
  | .new, .cancelled => true
  | .confirmed, .cancelled => true
  | .packed, .cancelled => true
  | .shipped, .cancelled => true
  | .new, .returned => true
  | .confirmed, .returned => true
  | .packed, .returned => true
  | .shipped, .returned => true
  | _, _ => false

/-! ## DeliveryTracker (Orders.tsx lines 128-149, 188-193,
StorefrontLayout.tsx lines 108-120) -/

/-- handleDeliveryUpdate with field = status: writes the new status
unconditionally and additionally writes delivered_at := now exactly when
the value is delivered.  No edge validation exists in the code. -/
def handleDeliveryUpdateStatus (d : Delivery) (v : DeliveryStatus) (now : Nat) :
    Delivery :=
  if v = .delivered then { d with status := v, delivered_at := some now }
  else { d with status := v }

/-- Orders.tsx lines 188-193 getDeliveryProgress:
((indexOf status + 1) / length DELIVERY_STATUSES) * 100, and 0 when no
delivery is loaded. -/
def getDeliveryProgress (d : Option Delivery) : ℚ :=
  match d with
  | none => 0
  | some delivery =>
      (((DELIVERY_STATUSES.indexOf delivery.status : ℚ) + 1) /
        (DELIVERY_STATUSES.length : ℚ)) * 100

/-! ## RefundLedger (StorefrontLayout.tsx lines 122-145, 336-361) -/

/-- handleRefund: returns early when the amount field is empty (none);
otherwise inserts a payments row with amount = -refundAmount,
status = refunded, refund_amount = refundAmount, method =
payment_method || online, and then sets order.payment_status := refunded
unconditionally.  No amount bound of any kind is checked. -/
def handleRefund (o : Order) (ledger : List Payment)
    (refundAmount : Option ℚ) (reason : Option String) : Order × List Payment :=
  match refundAmount with
  | none => (o, ledger)
  | some amt =>
      let entry : Payment :=
        { id := ledger.length
          order_id := o.id
          amount := -amt
          method := o.payment_method.getD "online"
          status := "refunded"
          refund_amount := some amt
          refund_reason := reason }
      ({ o with payment_status := "refunded" }, ledger ++ [entry])

/-- Running sum of refund_amount entries over a ledger (NULL counts 0). -/
def refundSum (ledger : List Payment) : ℚ :=
  ledger.foldl (fun s p => s + p.refund_amount.getD 0) 0

/-- StorefrontLayout.tsx lines 336-361, COD payment-status handler: writes
order.payment_status := v, then looks up the single payments row with
method = cod (single() errors on zero or several rows, leaving
paymentRecord null) and, only when exactly one exists, writes its
status := v.  Nothing is ever inserted. -/
def handleCodPaymentUpdate (o : Order) (ledger : List Payment) (v : String) :
    Order × List Payment :=
  let codEntries := ledger.filter (fun p => p.method == "cod")
  let newLedger :=
    match codEntries with
    | [p] => ledger.map (fun q => if q.id == p.id then { q with status := v } else q)
    | _ => ledger
  ({ o with payment_status := v }, newLedger)

/-! ## Concrete sample records used in closed statements -/

/-- One cart line: price 100, quantity 1, ample stock. -/
def itemP100 : CartItem :=
  { id := 0, quantity := 1, product := { id := 1, price := 100, stock_quantity := 5 } }

/-- A fixed coupon worth 200. -/
def fixed200 : Coupon :=
  { code := "F200", type := .fixed, value := 200, max_discount := none,
    min_order_value := none, is_active := true }

/-- A 10 percent coupon whose max_discount column holds 0. -/
def pct10cap0 : Coupon :=
  { code := "P10", type := .percentage, value := 10, max_discount := some 0,
    min_order_value := none, is_active := true }

/-- A 10 percent coupon capped at 40. -/
def pct10cap40 : Coupon :=
  { code := "P10C40", type := .percentage, value := 10, max_discount := some 40,
    min_order_value := none, is_active := true }

/-- An order already in the delivered state. -/
def sampleOrderDelivered : Order :=
  { id := 1, status := .delivered, payment_status := "paid",
    payment_method := some "online", total := 1000 }

/-- An order with total 1000 and an empty refund history. -/
def order1000 : Order :=
  { id := 2, status := .new, payment_status := "paid",
    payment_method := some "online", total := 1000 }

/-- A cash-on-delivery order whose payment is still pending. -/
def codOrder : Order :=
  { id := 3, status := .shipped, payment_status := "pending",
    payment_method := some "cod", total := 750 }

/-- A delivery already in the delivered state. -/
def deliveredRec : Delivery :=
  { id := 4, status := .delivered, delivered_at := some 5 }

/-- A product with exactly one unit in stock. -/
def stockOneProduct : Product := { id := 1, price := 10, stock_quantity := 1 }

/-- A cart already holding that one unit. -/
def stockOneCart : List CartItem :=
  [{ id := 0, quantity := 1, product := stockOneProduct }]

/-- A pending COD capture entry on codOrder. -/
def codEntry : Payment :=
  { id := 0, order_id := 3, amount := 750, method := "cod", status := "pending",
    refund_amount := none, refund_reason := none }

/-! ## Helper lemmas -/

/-- Appending one entry adds its refund_amount to the running refund sum. -/
theorem refundSum_append (l : List Payment) (e : Payment) :
    refundSum (l ++ [e]) = refundSum l + e.refund_amount.getD 0 := by
  simp [refundSum, List.foldl_append]

/-- The status rewrite of the COD handler commutes with filtering for the
cod method, because it never changes the method field. -/
theorem filter_cod_map_status (l : List Payment) (pid : Nat) (v : String) :
    (l.map (fun q => if q.id == pid then { q with status := v } else q)).filter
        (fun p => p.method == "cod")
      = (l.filter (fun p => p.method == "cod")).map
          (fun q => if q.id == pid then { q with status := v } else q) := by
  induction l with
  | nil => rfl
  | cons a t ih =>
      simp only [beq_iff_eq] at ih
      by_cases hid : a.id = pid <;>
        by_cases hm : a.method = "cod" <;>
          simp [List.filter_cons, beq_iff_eq, hid, hm, ih]

/-! ## Claim C1: order status transitions -/

/-- C1 counterexample: the pair (delivered, new) is outside the lifecycle
edge set, yet the status-update operation succeeds and changes the status
field to new, instead of failing with InvalidTransition and leaving the
status unchanged as the claim states. -/
theorem C1_counterexample :
    specAllowedOrderEdge OrderStatus.delivered OrderStatus.new = false ∧
    (handleStatusUpdate sampleOrderDelivered OrderStatus.new).status = OrderStatus.new ∧
    (handleStatusUpdate sampleOrderDelivered OrderStatus.new).status ≠
      sampleOrderDelivered.status := by
  refine ⟨rfl, rfl, ?_⟩
  simp [handleStatusUpdate, sampleOrderDelivered]

/-- C1 amended: the order status-update operation performs no transition
validation; for every (state, target) pair, even one outside the lifecycle
edge set, it succeeds and sets the status field to the target. -/
theorem order_status_update_unconditional (o : Order) (t : OrderStatus)
    (h : specAllowedOrderEdge o.status t = false) :
    (handleStatusUpdate o t).status = t := rfl

/-- Witness for order_status_update_unconditional at the delivered-to-new
pair. -/
theorem order_status_update_unconditional_witness :
    (handleStatusUpdate sampleOrderDelivered OrderStatus.new).status =
      OrderStatus.new :=
  order_status_update_unconditional sampleOrderDelivered OrderStatus.new rfl

/-! ## Claim C6: delivery status update and delivered_at -/

/-- C6 counterexample: a delivery already in the delivered state accepts a
status update to picked (the code raises no InvalidTransition and changes
the status), contradicting the claim that no transition out of delivered
is ever accepted. -/
theorem C6_counterexample :
    (handleDeliveryUpdateStatus deliveredRec DeliveryStatus.picked 9).status =
      DeliveryStatus.picked ∧
    (handleDeliveryUpdateStatus deliveredRec DeliveryStatus.picked 9).status ≠
      deliveredRec.status := by
  refine ⟨rfl, ?_⟩
  simp [handleDeliveryUpdateStatus, deliveredRec]

/-- C6 amended: the delivery status-update operation sets delivered_at to
the transition time exactly when the target status is delivered, but it
performs no transition validation: every target, including targets leaving
the delivered state, is accepted, so delivered_at can be written more than
once per delivery. -/
theorem delivery_update_sets_delivered_at (d : Delivery) (v : DeliveryStatus)
    (now : Nat) :
    (handleDeliveryUpdateStatus d v now).status = v ∧
    (handleDeliveryUpdateStatus d v now).delivered_at =
      (if v = DeliveryStatus.delivered then some now else d.delivered_at) := by
  unfold handleDeliveryUpdateStatus
  by_cases h : v = DeliveryStatus.delivered <;> simp [h]

/-! ## Claim C7: delivery progress metric -/

/-- C7 counterexample: with the six-element DELIVERY_STATUSES list the
delivered status sits at index 4, so the progress metric yields
(4 + 1) / 6 * 100 = 250 / 3 percent, not the 100 percent the claim
states. -/
theorem C7_counterexample :
    getDeliveryProgress (some deliveredRec) = 250 / 3 ∧
    getDeliveryProgress (some deliveredRec) ≠ 100 := by
  constructor <;>
    simp +decide only [getDeliveryProgress, deliveredRec, DELIVERY_STATUSES,
      List.indexOf, List.findIdx, List.findIdx.go, BEq.beq] <;>
    norm_num

/-- C7 amended: for a loaded delivery the progress metric equals
(index(status) + 1) / 6 * 100 over the six-element canonical status list;
delivered therefore yields 250 / 3 percent (about 83.33), and only the
final state failed yields 100 percent. -/
theorem delivery_progress_formula (d : Delivery) :
    getDeliveryProgress (some d) =
      ((DELIVERY_STATUSES.indexOf d.status : ℚ) + 1) / 6 * 100 ∧
    (d.status = DeliveryStatus.delivered →
      getDeliveryProgress (some d) = 250 / 3) ∧
    (d.status = DeliveryStatus.failed → getDeliveryProgress (some d) = 100) := by
  refine ⟨by simp [getDeliveryProgress, DELIVERY_STATUSES], ?_, ?_⟩ <;>
    intro h <;>
    simp +decide only [getDeliveryProgress, h, DELIVERY_STATUSES,
      List.indexOf, List.findIdx, List.findIdx.go, BEq.beq] <;>
    norm_num

/-- Witness for delivery_progress_formula at the delivered record. -/
theorem delivery_progress_formula_witness :
    getDeliveryProgress (some deliveredRec) = 250 / 3 :=
  (delivery_progress_formula deliveredRec).2.1 rfl

/-! ## Claim C2: refund bounds -/

/-- C2 counterexample: against an order of total 1000 with an empty ledger,
a refund of 2000 exceeds total minus previous refunds, yet the call
succeeds, appends the entry, and leaves the running refund sum at 2000,
above the order total, instead of failing and leaving the ledger
unchanged. -/
theorem C2_counterexample :
    (handleRefund order1000 [] (some 2000) none).2 ≠ [] ∧
    refundSum (handleRefund order1000 [] (some 2000) none).2 = 2000 ∧
    ¬ refundSum (handleRefund order1000 [] (some 2000) none).2 ≤
        order1000.total := by
  refine ⟨by simp [handleRefund], ?_, ?_⟩ <;>
    norm_num [handleRefund, refundSum, order1000]

/-- C2 amended: the refund operation checks no amount bound at all.  A call
with an empty amount field leaves the order and ledger unchanged; every
call with a concrete amount, including amounts that are non-positive or
exceed the order total minus previous refunds, appends its entry and adds
the amount to the running refund sum, which can therefore exceed the order
total. -/
theorem refund_appends_unconditionally (o : Order) (ledger : List Payment)
    (amt : ℚ) (reason : Option String) :
    refundSum (handleRefund o ledger (some amt) reason).2 =
      refundSum ledger + amt ∧
    handleRefund o ledger none reason = (o, ledger) := by
  constructor
  · simp [handleRefund, refundSum_append]
  · rfl

/-! ## Claim C5: COD payment status and the ledger -/

/-- C5 counterexample: marking a cash-on-delivery order as paid when no COD
payment entry exists updates the order field but appends nothing to the
ledger, so the order payment_status (paid) and the ledger (empty) diverge,
contrary to the claim that the operation appends or updates an entry in
the same step even when no COD entry exists yet. -/
theorem C5_counterexample :
    (handleCodPaymentUpdate codOrder [] "paid").1.payment_status = "paid" ∧
    (handleCodPaymentUpdate codOrder [] "paid").2 = [] := by
  exact ⟨rfl, rfl⟩

/-- C5 amended: the COD payment-status operation always writes the new
value to the order payment_status field; when the ledger holds exactly one
entry with method cod it rewrites that entry status to the same value in
the same step, and when the ledger holds no cod entry it leaves the ledger
unchanged, appending nothing. -/
theorem cod_payment_update_behavior (o : Order) (ledger : List Payment)
    (v : String) :
    (handleCodPaymentUpdate o ledger v).1.payment_status = v ∧
    (ledger.filter (fun p => p.method == "cod") = [] →
      (handleCodPaymentUpdate o ledger v).2 = ledger) ∧
    (∀ p, ledger.filter (fun p => p.method == "cod") = [p] →
      ((handleCodPaymentUpdate o ledger v).2.filter
          (fun q => q.method == "cod")) = [{ p with status := v }]) := by
  refine ⟨rfl, ?_, ?_⟩
  · intro h
    simp [handleCodPaymentUpdate, h]
  · intro p h
    have hmem : p ∈ ledger.filter (fun p => p.method == "cod") := by
      simp [h]
    have hpid : p.id == p.id := by simp
    simp only [handleCodPaymentUpdate, h]
    rw [filter_cod_map_status, h]
    simp

/-- Witness for cod_payment_update_behavior on codOrder with a ledger
holding the single COD capture entry. -/
theorem cod_payment_update_behavior_witness :
    (handleCodPaymentUpdate codOrder [codEntry] "paid").1.payment_status =
      "paid" ∧
    ((handleCodPaymentUpdate codOrder [codEntry] "paid").2.filter
        (fun q => q.method == "cod")) = [{ codEntry with status := "paid" }] :=
  ⟨(cod_payment_update_behavior codOrder [codEntry] "paid").1,
   (cod_payment_update_behavior codOrder [codEntry] "paid").2.2 codEntry rfl⟩

/-! ## Claim C10: shape of a successful refund -/

/-- C10: every ledger entry appended by a successful refund has status
refunded, an amount equal to the exact negation of its refund_amount, and
the operation sets the order payment_status to refunded unconditionally,
for partial and full refunds alike. -/
theorem refund_entry_shape (o : Order) (ledger : List Payment) (amt : ℚ)
    (reason : Option String) :
    ∃ e : Payment,
      (handleRefund o ledger (some amt) reason).2 = ledger ++ [e] ∧
      e.status = "refunded" ∧
      e.refund_amount = some amt ∧
      e.amount = -(e.refund_amount.getD 0) ∧
      (handleRefund o ledger (some amt) reason).1.payment_status =
        "refunded" := by
  refine ⟨_, rfl, rfl, rfl, ?_, rfl⟩
  simp

/-! ## Claim C3: discount clamping and total flooring -/

/-- C3 counterexample: one item of price 100 with a fixed coupon of value
200 yields discount 200 (not clamped to the subtotal) and total
100 - 200 + 50 = -50 (not floored at 0), so the returned total is
negative, contradicting the claim. -/
theorem C3_counterexample :
    (computeTotals [itemP100] (some fixed200)).total = -50 ∧
    (computeTotals [itemP100] (some fixed200)).total < 0 := by
  constructor <;>
    norm_num [computeTotals, subtotalOf, discountOf, shippingChargeOf,
      itemP100, fixed200]

/-- C3 amended: the pricing computation applies no clamping to the coupon
discount and no floor to the total: total = subtotal - discount +
shippingCharge exactly, and whenever a fixed coupon value exceeds
subtotal + shippingCharge the returned total is negative. -/
theorem total_formula_unclamped :
    (∀ (items : List CartItem) (c : Option Coupon),
      (computeTotals items c).total =
        (computeTotals items c).subtotal - (computeTotals items c).discount +
          (computeTotals items c).shippingCharge) ∧
    (∀ (items : List CartItem) (cp : Coupon),
      cp.type = CouponType.fixed →
      subtotalOf items + shippingChargeOf (subtotalOf items) < cp.value →
      (computeTotals items (some cp)).total < 0) := by
  constructor
  · intro items c
    rfl
  · intro items cp htype hlt
    simp only [computeTotals, discountOf, htype]
    linarith

/-- Witness for total_formula_unclamped at the price-100 item and the fixed
coupon of value 200. -/
theorem total_formula_unclamped_witness :
    (computeTotals [itemP100] (some fixed200)).total =
        (computeTotals [itemP100] (some fixed200)).subtotal -
          (computeTotals [itemP100] (some fixed200)).discount +
          (computeTotals [itemP100] (some fixed200)).shippingCharge ∧
    (computeTotals [itemP100] (some fixed200)).total < 0 :=
  ⟨total_formula_unclamped.1 [itemP100] (some fixed200),
   total_formula_unclamped.2 [itemP100] fixed200 rfl (by
     norm_num [subtotalOf, shippingChargeOf, itemP100, fixed200])⟩

/-! ## Claim C4: percentage coupons with max_discount set -/

/-- C4 counterexample: a 10 percent coupon whose max_discount is set to 0
yields discount 100 on subtotal 1000, because the code evaluates
max_discount || Infinity and 0 is falsy; the claimed value
min(1000 * 10 / 100, 0) = 0 is not returned, and the discount exceeds
max_discount. -/
theorem C4_counterexample :
    pct10cap0.max_discount = some 0 ∧
    discountOf (some pct10cap0) 1000 = 100 ∧
    discountOf (some pct10cap0) 1000 ≠ min (1000 * pct10cap0.value / 100) 0 ∧
    ¬ discountOf (some pct10cap0) 1000 ≤ 0 := by
  refine ⟨rfl, ?_, ?_, ?_⟩ <;>
    norm_num [discountOf, pct10cap0, min_def]

/-- C4 amended: for every percentage coupon whose max_discount is set to a
nonzero value, the discount equals min(subtotal * value / 100,
max_discount) and never exceeds max_discount; a max_discount of 0 is
treated as absent by the code and leaves the percentage uncapped. -/
theorem percentage_cap_nonzero (cp : Coupon) (sub m : ℚ)
    (htype : cp.type = CouponType.percentage)
    (hmax : cp.max_discount = some m) (hm : m ≠ 0) :
    discountOf (some cp) sub = min (sub * cp.value / 100) m ∧
    discountOf (some cp) sub ≤ m := by
  have h1 : discountOf (some cp) sub = min (sub * cp.value / 100) m := by
    simp [discountOf, htype, hmax, hm]
  exact ⟨h1, h1 ▸ min_le_right _ _⟩

/-- Witness for percentage_cap_nonzero at the 10 percent coupon capped at
40 and subtotal 500. -/
theorem percentage_cap_nonzero_witness :
    discountOf (some pct10cap40) 500 = min (500 * pct10cap40.value / 100) 40 ∧
    discountOf (some pct10cap40) 500 ≤ 40 :=
  percentage_cap_nonzero pct10cap40 500 40 rfl rfl (by norm_num)

/-! ## Claim C8: stock checks on quantity increases -/

/-- C8 counterexample: the product has one unit in stock and the cart
already holds one; adding the product again via handleAddToCart increases
the stored quantity to 2 with no stock check, instead of rejecting the
increase and leaving the quantity unchanged as the claim states. -/
theorem C8_counterexample :
    stockOneProduct.stock_quantity = 1 ∧
    handleAddToCart stockOneCart stockOneProduct 7 =
      [{ id := 0, quantity := 2, product := stockOneProduct }] := by
  exact ⟨rfl, rfl⟩

/-- C8 amended: the cart-page quantity update rejects an increase whose new
quantity exceeds the product stock, leaving the list unchanged, but the
home-page add-to-cart operation increments the quantity of an existing
line by one without any stock check. -/
theorem cart_quantity_stock_behavior :
    (∀ (items : List CartItem) (itemId newQuantity : Nat) (i : CartItem),
      items.find? (fun x => x.id == itemId) = some i →
      i.product.stock_quantity < newQuantity →
      updateQuantity items itemId newQuantity = items) ∧
    (∀ (items : List CartItem) (p : Product) (freshId : Nat) (e : CartItem),
      items.find? (fun x => x.product.id == p.id) = some e →
      { e with quantity := e.quantity + 1 } ∈ handleAddToCart items p freshId) := by
  constructor
  · intro items itemId q i hfind hstock
    have hq : ¬ q < 1 := by omega
    simp [updateQuantity, hq, hfind, hstock]
  · intro items p fid e hfind
    have hmem : e ∈ items := List.mem_of_find?_eq_some hfind
    unfold handleAddToCart
    rw [hfind]
    have hfe : ({ e with quantity := e.quantity + 1 } : CartItem) =
        (fun i => if i.id == e.id then { i with quantity := i.quantity + 1 }
          else i) e := by
      simp
    rw [hfe]
    exact List.mem_map_of_mem _ hmem

/-- Witness for cart_quantity_stock_behavior on the one-unit-stock cart:
the quantity-2 update is rejected, while add-to-cart produces a line whose
quantity 2 exceeds the stock. -/
theorem cart_quantity_stock_behavior_witness :
    updateQuantity stockOneCart 0 2 = stockOneCart ∧
    ({ id := 0, quantity := 2, product := stockOneProduct } : CartItem) ∈
      handleAddToCart stockOneCart stockOneProduct 7 :=
  ⟨cart_quantity_stock_behavior.1 stockOneCart 0 2
      { id := 0, quantity := 1, product := stockOneProduct } rfl (by decide),
   cart_quantity_stock_behavior.2 stockOneCart stockOneProduct 7
      { id := 0, quantity := 1, product := stockOneProduct } rfl⟩

/-! ## Claim C9: purity of the pricing computation -/

/-- C9: the pricing computation is a deterministic function of the item
list and applied coupon: two evaluations with identical inputs agree on
all four outputs.  It is embedded as a pure function, mutating no other
state. -/
theorem computeTotals_deterministic (items1 items2 : List CartItem)
    (c1 c2 : Option Coupon) (h1 : items1 = items2) (h2 : c1 = c2) :
    computeTotals items1 c1 = computeTotals items2 c2 ∧
    (computeTotals items1 c1).subtotal = (computeTotals items2 c2).subtotal ∧
    (computeTotals items1 c1).discount = (computeTotals items2 c2).discount ∧
    (computeTotals items1 c1).shippingCharge =
      (computeTotals items2 c2).shippingCharge ∧
    (computeTotals items1 c1).total = (computeTotals items2 c2).total := by
  subst h1
  subst h2
  exact ⟨rfl, rfl, rfl, rfl, rfl⟩

/-- Witness for computeTotals_deterministic at the sample cart and fixed
coupon. -/
theorem computeTotals_deterministic_witness :
    computeTotals [itemP100] (some fixed200) =
      computeTotals [itemP100] (some fixed200) :=
  (computeTotals_deterministic [itemP100] [itemP100] (some fixed200)
    (some fixed200) rfl rfl).1
